import Mathlib

/-!
Verification of the `AstReferenceResolver` from api-extractor: a shallow
embedding of `AstReferenceResolver.ts`, which resolves a TSDoc declaration
reference by walking the `AstSymbolTable` compiler state, together with
theorems settling the specified properties of its resolution algorithm.
-/

namespace AstRefResolver

/-- The subset of `ts.SyntaxKind` relevant to the resolver: the seven
declaration kinds that kind-based selectors can name, plus `other` for every
remaining member of the TypeScript enum (identified by its numeric value). -/
inductive SyntaxKind where
  | ClassDeclaration
  | EnumDeclaration
  | FunctionDeclaration
  | InterfaceDeclaration
  | ModuleDeclaration
  | TypeAliasDeclaration
  | VariableDeclaration
  | other (code : Nat)
deriving DecidableEq, Repr

/-- `tsdoc.SelectorKind`: the family a TSDoc member-reference selector belongs
to. The resolver only supports the `System` family. -/
inductive SelectorKind where
  | Error
  | System
  | Index
  | Label
deriving DecidableEq, Repr

/-- `tsdoc.DocMemberSelector`: a selector tag attached to a member reference,
with its family (`selectorKind`) and raw text (`selector`). -/
structure DocMemberSelector where
  selectorKind : SelectorKind
  selector : String
deriving DecidableEq, Repr

/-- `tsdoc.DocMemberIdentifier`: a plain-name identifier of a member
reference. -/
structure DocMemberIdentifier where
  identifier : String
deriving DecidableEq, Repr

/-- `tsdoc.DocMemberReference`: one dotted-path segment of a declaration
reference.  `memberSymbol` (an ECMAScript symbol-keyed member, whose payload
the resolver never inspects) and `memberIdentifier` are alternatives; a
segment may also carry a disambiguation selector. -/
structure DocMemberReference where
  memberSymbol : Option Unit
  memberIdentifier : Option DocMemberIdentifier
  selector : Option DocMemberSelector
deriving DecidableEq, Repr

/-- `tsdoc.DocDeclarationReference`: the structured reference being resolved —
an optional package qualifier, an optional file-system import path, and the
dotted segment sequence. -/
structure DocDeclarationReference where
  packageName : Option String
  importPath : Option String
  memberReferences : List DocMemberReference
deriving DecidableEq, Repr

/-- `AstDeclaration`: one syntactic declaration in the declaration graph.  It
exposes the `ts.SyntaxKind` of its wrapped compiler node (`declaration.kind`
in the source), the local name of its `astSymbol`, and its child
declarations. -/
inductive AstDeclaration where
  | mk (kind : SyntaxKind) (name : String) (children : List AstDeclaration)
deriving Repr

/-- `astDeclaration.declaration.kind`. -/
def AstDeclaration.kind : AstDeclaration → SyntaxKind
  | .mk k _ _ => k

/-- `astDeclaration.astSymbol.localName`. -/
def AstDeclaration.name : AstDeclaration → String
  | .mk _ n _ => n

/-- `astDeclaration.children`. -/
def AstDeclaration.children : AstDeclaration → List AstDeclaration
  | .mk _ _ cs => cs

/-- Modelled from the spec: `AstDeclaration.findChildrenWithName` lives in
`AstDeclaration.ts`, which is outside the provided sources; per the external
interface `childrenNamed(declarationNode, name)` it returns the ordered list
of the node's children whose identifier exactly equals the requested name. -/
def AstDeclaration.findChildrenWithName (d : AstDeclaration) (name : String) :
    List AstDeclaration :=
  d.children.filter (fun child => child.name = name)

/-- `AstEntity`: what an exported name is bound to — an `AstSymbol` (local
declarations sharing a name) or an `AstImport` (a re-export, never expanded
by this resolver; its payload is never inspected). -/
inductive AstEntity where
  | astSymbol (localName : String) (astDeclarations : List AstDeclaration)
  | astImport

/-- `WorkingPackage`: the identity of the package being analyzed. -/
structure WorkingPackage where
  name : String
deriving DecidableEq, Repr

/-- `ResolverFailure`: reports a failed resolution, carrying a human-readable
`reason`. -/
structure ResolverFailure where
  reason : String
deriving DecidableEq, Repr

/-- Reason text for an external-package reference. -/
def externalPackageMsg : String := "External package references are not supported"

/-- Reason text for a path-based import. -/
def importPathMsg : String := "Import paths are not supported"

/-- Reason text for a reference with no member segments. -/
def packageRefMsg : String := "Package references are not supported"

/-- Reason text when the first segment's name is not exported. -/
def unknownExportMsg (packageName exportName : String) : String :=
  "The package \"" ++ packageName ++ "\" does not have an export \"" ++ exportName ++ "\""

/-- Reason text when the root entity is a re-export. -/
def reexportMsg : String := "Reexported declarations are not supported"

/-- Reason text for a symbol-keyed member reference. -/
def symbolSelectorMsg : String := "ECMAScript symbol selectors are not supported"

/-- Reason text when a member reference has no identifier. -/
def missingIdentifierMsg : String := "The member identifier is missing in the root member reference"

/-- Reason text when no child has the requested name. -/
def noMatchingMemberMsg (memberName : String) : String :=
  "No member was found with name \"" ++ memberName ++ "\""

/-- Reason text for a multi-declaration name referenced without a selector. -/
def ambiguousReferenceMsg (astSymbolName : String) : String :=
  "The reference is ambiguous because \"" ++ astSymbolName ++
    "\" has more than one declaration; you need to add a TSDoc member reference selector"

/-- Reason text for a selector from an unsupported family. -/
def unsupportedSelectorTypeMsg (selectorName : String) : String :=
  "The selector \"" ++ selectorName ++ "\" is not a supported selector type"

/-- Reason text for an unrecognized system selector tag. -/
def unsupportedSystemSelectorMsg (selectorName : String) : String :=
  "Unsupported system selector \"" ++ selectorName ++ "\""

/-- Reason text when no candidate has the selector's kind. -/
def noDeclarationForSelectorMsg (astSymbolName selectorName : String) : String :=
  "A declaration for \"" ++ astSymbolName ++ "\" was not found that matches the" ++
    " TSDoc selector \"" ++ selectorName ++ "\""

/-- Reason text when several candidates match the selector's kind. -/
def ambiguousSelectorMatchMsg (astSymbolName selectorName : String) : String :=
  "More than one declaration \"" ++ astSymbolName ++ "\" matches the" ++
    " TSDoc selector \"" ++ selectorName ++ "\""

/-- The `switch (selectorName)` table of `_selectDeclaration`: maps a system
selector tag to the `ts.SyntaxKind` it selects, or `none` for the `default`
branch. -/
def selectorSyntaxKindFor (selectorName : String) : Option SyntaxKind :=
  if selectorName = "class" then some .ClassDeclaration
  else if selectorName = "enum" then some .EnumDeclaration
  else if selectorName = "function" then some .FunctionDeclaration
  else if selectorName = "interface" then some .InterfaceDeclaration
  else if selectorName = "namespace" then some .ModuleDeclaration
  else if selectorName = "type" then some .TypeAliasDeclaration
  else if selectorName = "variable" then some .VariableDeclaration
  else none

/-- `AstReferenceResolver._getMemberReferenceIdentifier`. -/
def getMemberReferenceIdentifier (memberReference : DocMemberReference) :
    Except ResolverFailure String :=
  match memberReference.memberSymbol with
  | some _ => .error ⟨symbolSelectorMsg⟩
  | none =>
    match memberReference.memberIdentifier with
    | none => .error ⟨missingIdentifierMsg⟩
    | some memberIdentifier => .ok memberIdentifier.identifier

/-- `AstReferenceResolver._selectDeclaration`: narrows a candidate list of
declarations to a single one, applying the segment's optional selector. -/
def selectDeclaration (astDeclarations : List AstDeclaration)
    (memberReference : DocMemberReference) (astSymbolName : String) :
    Except ResolverFailure AstDeclaration :=
  match memberReference.selector with
  | none =>
    if h : astDeclarations.length = 1 then
      .ok (astDeclarations.get ⟨0, by omega⟩)
    else
      .error ⟨ambiguousReferenceMsg astSymbolName⟩
  | some sel =>
    let selectorName : String := sel.selector
    if sel.selectorKind ≠ SelectorKind.System then
      .error ⟨unsupportedSelectorTypeMsg selectorName⟩
    else
      match selectorSyntaxKindFor selectorName with
      | none => .error ⟨unsupportedSystemSelectorMsg selectorName⟩
      | some selectorSyntaxKind =>
        let matchingDecls : List AstDeclaration :=
          astDeclarations.filter (fun x => x.kind = selectorSyntaxKind)
        if h0 : matchingDecls.length = 0 then
          .error ⟨noDeclarationForSelectorMsg astSymbolName selectorName⟩
        else if matchingDecls.length > 1 then
          .error ⟨ambiguousSelectorMatchMsg astSymbolName selectorName⟩
        else
          .ok (matchingDecls.get ⟨0, Nat.pos_of_ne_zero h0⟩)

/-- The descent loop of `AstReferenceResolver.resolve` (the `for` over
`memberReferences` from index 1 upward): for each remaining segment, compute
its identifier, collect the matching children of the current declaration, and
narrow them with `selectDeclaration`. -/
def resolveLoop (memberReferences : List DocMemberReference)
    (currentDeclaration : AstDeclaration) : Except ResolverFailure AstDeclaration :=
  match memberReferences with
  | [] => .ok currentDeclaration
  | memberReference :: rest =>
    match getMemberReferenceIdentifier memberReference with
    | .error f => .error f
    | .ok memberName =>
      let matchingChildren := currentDeclaration.findChildrenWithName memberName
      if matchingChildren.length = 0 then
        .error ⟨noMatchingMemberMsg memberName⟩
      else
        match selectDeclaration matchingChildren memberReference memberName with
        | .error f => .error f
        | .ok selectedDeclaration => resolveLoop rest selectedDeclaration

/-- The root phase of `AstReferenceResolver.resolve` after the qualifier
checks: the empty-sequence check, the root identifier computation, the
symbol-table export lookup (the table of the working module is abstracted as
a map from export names to entities), the re-export check, the root
narrowing, and the descent loop. -/
def resolveMembers (astSymbolTable : String → Option AstEntity)
    (workingPackage : WorkingPackage)
    (memberReferences : List DocMemberReference) :
    Except ResolverFailure AstDeclaration :=
  match memberReferences with
  | [] => .error ⟨packageRefMsg⟩
  | rootMemberReference :: rest =>
    match getMemberReferenceIdentifier rootMemberReference with
    | .error f => .error f
    | .ok exportName =>
      match astSymbolTable exportName with
      | none => .error ⟨unknownExportMsg workingPackage.name exportName⟩
      | some .astImport => .error ⟨reexportMsg⟩
      | some (.astSymbol localName astDeclarations) =>
        match selectDeclaration astDeclarations rootMemberReference localName with
        | .error f => .error f
        | .ok currentDeclaration => resolveLoop rest currentDeclaration

/-- The test `declarationReference.packageName !== undefined &&
declarationReference.packageName !== this._workingPackage.name`. -/
def packageNameMismatch (declarationReference : DocDeclarationReference)
    (workingPackage : WorkingPackage) : Bool :=
  match declarationReference.packageName with
  | some packageName => packageName ≠ workingPackage.name
  | none => false

/-- The truthiness test `if (declarationReference.importPath)`: in JavaScript
an absent or empty string is falsy. -/
def importPathTruthy (declarationReference : DocDeclarationReference) : Bool :=
  match declarationReference.importPath with
  | some importPath => importPath ≠ ""
  | none => false

/-- `AstReferenceResolver.resolve`: the external-package check, the
import-path check, then the root lookup and descent of `resolveMembers`. -/
def resolve (astSymbolTable : String → Option AstEntity)
    (workingPackage : WorkingPackage)
    (declarationReference : DocDeclarationReference) :
    Except ResolverFailure AstDeclaration :=
  if packageNameMismatch declarationReference workingPackage then
    .error ⟨externalPackageMsg⟩
  else if importPathTruthy declarationReference then
    .error ⟨importPathMsg⟩
  else
    resolveMembers astSymbolTable workingPackage declarationReference.memberReferences

/-! ### Concrete fixtures

A small declaration graph and symbol table used to exercise the theorems on
concrete inputs, following the scenarios of the specification: working
package `widgets` with a class `Button` (child function `onClick`, which in
turn has a child variable `size`), a merged declaration `Shape`
(interface + class), and a re-exported name `Legacy`. -/

/-- A member segment with a plain identifier and no selector. -/
def plainSegment (name : String) : DocMemberReference := ⟨none, some ⟨name⟩, none⟩

/-- A member segment with a plain identifier and a system selector tag. -/
def selSegment (name tag : String) : DocMemberReference :=
  ⟨none, some ⟨name⟩, some ⟨SelectorKind.System, tag⟩⟩

/-- A variable declaration named `size`, child of `onClick`. -/
def sizeDecl : AstDeclaration := .mk .VariableDeclaration "size" []

/-- A function declaration named `onClick`, child of `Button`. -/
def onClickDecl : AstDeclaration := .mk .FunctionDeclaration "onClick" [sizeDecl]

/-- A class declaration named `Button`. -/
def buttonDecl : AstDeclaration := .mk .ClassDeclaration "Button" [onClickDecl]

/-- The interface half of the merged declaration `Shape`. -/
def shapeInterfaceDecl : AstDeclaration := .mk .InterfaceDeclaration "Shape" []

/-- The class half of the merged declaration `Shape`. -/
def shapeClassDecl : AstDeclaration := .mk .ClassDeclaration "Shape" []

/-- The export table of the `widgets` working package. -/
def widgetsTable : String → Option AstEntity := fun n =>
  if n = "Button" then some (.astSymbol "Button" [buttonDecl])
  else if n = "Shape" then some (.astSymbol "Shape" [shapeInterfaceDecl, shapeClassDecl])
  else if n = "Legacy" then some .astImport
  else none

/-- The `widgets` working package. -/
def widgetsPackage : WorkingPackage := ⟨"widgets"⟩

/-! ### Claim theorems -/

/-- C1: for every non-empty candidate list of declaration nodes narrowed
without a selector, if the list has exactly one element the narrowing step
returns that element, and if it has more than one element it returns the
`AmbiguousReference` failure — never an arbitrarily chosen node. -/
theorem narrowing_without_selector (ds : List AstDeclaration)
    (m : DocMemberReference) (n : String)
    (hne : ds ≠ []) (hsel : m.selector = none) :
    (∀ d : AstDeclaration, ds = [d] → selectDeclaration ds m n = .ok d) ∧
    (1 < ds.length →
      selectDeclaration ds m n = .error ⟨ambiguousReferenceMsg n⟩) := by
  constructor
  · rintro d rfl
    unfold selectDeclaration
    rw [hsel]
    rfl
  · intro hlen
    unfold selectDeclaration
    rw [hsel, dif_neg (by omega)]

/-- Witness for C1 at concrete inputs: the singleton list `[buttonDecl]`
narrows to `buttonDecl`, and the two-element merged declaration of `Shape`
narrows to the ambiguity failure. -/
theorem narrowing_without_selector_witness :
    selectDeclaration [buttonDecl] (plainSegment "Button") "Button" = .ok buttonDecl ∧
    selectDeclaration [shapeInterfaceDecl, shapeClassDecl] (plainSegment "Shape") "Shape" =
      .error ⟨ambiguousReferenceMsg "Shape"⟩ :=
  ⟨(narrowing_without_selector [buttonDecl] (plainSegment "Button") "Button"
      (by simp) rfl).1 buttonDecl rfl,
   (narrowing_without_selector [shapeInterfaceDecl, shapeClassDecl] (plainSegment "Shape")
      "Shape" (by simp) rfl).2 (by simp)⟩

/-- C9: the narrowing step is total even outside its documented non-empty
precondition: applied to the empty candidate list with no selector it returns
the `AmbiguousReference` failure (whose reason text claims more than one
declaration) rather than indexing out of bounds or returning a node. -/
theorem narrowing_empty_list (m : DocMemberReference) (n : String)
    (hsel : m.selector = none) :
    selectDeclaration [] m n = .error ⟨ambiguousReferenceMsg n⟩ := by
  unfold selectDeclaration
  rw [hsel]
  rfl

/-- Witness for C9 at a concrete segment. -/
theorem narrowing_empty_list_witness :
    selectDeclaration [] (plainSegment "Gone") "Gone" =
      .error ⟨ambiguousReferenceMsg "Gone"⟩ :=
  narrowing_empty_list (plainSegment "Gone") "Gone" rfl

/-- C3: a system (kind-family) selector whose tag is not one of the seven
recognized kinds is rejected with `UnsupportedSelectorValue` (reason
`Unsupported system selector …`), regardless of how many candidate
declarations share the segment's identifier. -/
theorem unknown_selector_tag_rejected (ds : List AstDeclaration)
    (m : DocMemberReference) (n tag : String)
    (hsel : m.selector = some ⟨SelectorKind.System, tag⟩)
    (htag : tag ∉ ["class", "enum", "function", "interface", "namespace", "type", "variable"]) :
    selectDeclaration ds m n = .error ⟨unsupportedSystemSelectorMsg tag⟩ := by
  simp only [List.mem_cons, not_or] at htag
  obtain ⟨h1, h2, h3, h4, h5, h6, h7, -⟩ := htag
  have hk : selectorSyntaxKindFor tag = none := by
    simp [selectorSyntaxKindFor, h1, h2, h3, h4, h5, h6, h7]
  unfold selectDeclaration
  rw [hsel]
  simp [hk]

/-- Witness for C3: the unrecognized tag `struct`, on a candidate list of two
declarations. -/
theorem unknown_selector_tag_rejected_witness :
    selectDeclaration [shapeInterfaceDecl, shapeClassDecl]
        (selSegment "Shape" "struct") "Shape" =
      .error ⟨unsupportedSystemSelectorMsg "struct"⟩ :=
  unknown_selector_tag_rejected [shapeInterfaceDecl, shapeClassDecl]
    (selSegment "Shape" "struct") "Shape" "struct" rfl (by decide)

/-- C2: narrowing a non-empty candidate list with a recognized kind-based
selector filters the candidates to those whose declaration kind equals the
kind mapped from the tag; zero survivors give `NoDeclarationForSelector`,
more than one give `AmbiguousSelectorMatch`, and exactly one survivor is
returned. -/
theorem narrowing_with_kind_selector (ds : List AstDeclaration)
    (m : DocMemberReference) (n tag : String) (k : SyntaxKind)
    (hne : ds ≠ []) (hsel : m.selector = some ⟨SelectorKind.System, tag⟩)
    (hk : selectorSyntaxKindFor tag = some k) :
    ((ds.filter (fun x => x.kind = k)).length = 0 →
      selectDeclaration ds m n = .error ⟨noDeclarationForSelectorMsg n tag⟩) ∧
    (1 < (ds.filter (fun x => x.kind = k)).length →
      selectDeclaration ds m n = .error ⟨ambiguousSelectorMatchMsg n tag⟩) ∧
    (∀ d : AstDeclaration, ds.filter (fun x => x.kind = k) = [d] →
      selectDeclaration ds m n = .ok d) := by
  unfold selectDeclaration
  rw [hsel]
  simp only [hk]
  refine ⟨?_, ?_, ?_⟩
  · intro h0
    rw [dif_pos h0]
    rfl
  · intro hlen
    rw [dif_neg (by omega), if_pos hlen]
    rfl
  · intro d hfilter
    simp [hfilter]

/-- Witness for C2 at concrete inputs: on the merged `Shape` declaration
(interface + class), the selector `class` narrows to the class declaration
and the selector `enum` fails with `NoDeclarationForSelector`. -/
theorem narrowing_with_kind_selector_witness :
    selectDeclaration [shapeInterfaceDecl, shapeClassDecl]
        (selSegment "Shape" "class") "Shape" = .ok shapeClassDecl ∧
    selectDeclaration [shapeInterfaceDecl, shapeClassDecl]
        (selSegment "Shape" "enum") "Shape" =
      .error ⟨noDeclarationForSelectorMsg "Shape" "enum"⟩ :=
  ⟨(narrowing_with_kind_selector [shapeInterfaceDecl, shapeClassDecl]
      (selSegment "Shape" "class") "Shape" "class" .ClassDeclaration
      (by simp) rfl rfl).2.2 shapeClassDecl rfl,
   (narrowing_with_kind_selector [shapeInterfaceDecl, shapeClassDecl]
      (selSegment "Shape" "enum") "Shape" "enum" .EnumDeclaration
      (by simp) rfl rfl).1 rfl⟩

/-- C4: a reference declaring an external package name different from the
working package's name resolves to the `UnsupportedExternalPackage` failure.
The check runs before every other step: the conclusion holds for every
symbol table, every import path, and every member-segment sequence. -/
theorem external_package_rejected (table : String → Option AstEntity)
    (wp : WorkingPackage) (ref : DocDeclarationReference) (pn : String)
    (hpn : ref.packageName = some pn) (hdiff : pn ≠ wp.name) :
    resolve table wp ref = .error ⟨externalPackageMsg⟩ := by
  have hb : packageNameMismatch ref wp = true := by
    simp [packageNameMismatch, hpn, hdiff]
  unfold resolve
  rw [hb]
  rfl

/-- Witness for C4: referencing package `other-pkg` while analyzing
`widgets`. -/
theorem external_package_rejected_witness :
    resolve widgetsTable widgetsPackage
        ⟨some "other-pkg", none, [plainSegment "Button"]⟩ =
      .error ⟨externalPackageMsg⟩ :=
  external_package_rejected widgetsTable widgetsPackage
    ⟨some "other-pkg", none, [plainSegment "Button"]⟩ "other-pkg" rfl (by decide)

/-- C5: a reference declaring a (non-empty, hence JavaScript-truthy)
file-system import path, whose package name is absent or equal to the
working package's name, resolves to the `UnsupportedImportPath` failure. -/
theorem import_path_rejected (table : String → Option AstEntity)
    (wp : WorkingPackage) (ref : DocDeclarationReference) (p : String)
    (hpkg : ref.packageName = none ∨ ref.packageName = some wp.name)
    (hip : ref.importPath = some p) (hp : p ≠ "") :
    resolve table wp ref = .error ⟨importPathMsg⟩ := by
  have hb : packageNameMismatch ref wp = false := by
    rcases hpkg with h | h <;> simp [packageNameMismatch, h]
  have hi : importPathTruthy ref = true := by
    simp [importPathTruthy, hip, hp]
  unfold resolve
  rw [hb, hi]
  rfl

/-- Witness for C5: a reference with import path `./lib/inner`. -/
theorem import_path_rejected_witness :
    resolve widgetsTable widgetsPackage
        ⟨some "widgets", some "./lib/inner", [plainSegment "Button"]⟩ =
      .error ⟨importPathMsg⟩ :=
  import_path_rejected widgetsTable widgetsPackage
    ⟨some "widgets", some "./lib/inner", [plainSegment "Button"]⟩ "./lib/inner"
    (Or.inr rfl) rfl (by decide)

/-- C8: when the qualifier checks pass and the first segment carries a member
symbol, `resolve` fails with `UnsupportedSymbolSelector` for every symbol
table: the symbol-keyed check precedes the export lookup, so the outcome is
independent of the table's contents. -/
theorem symbol_keyed_root_rejected (table : String → Option AstEntity)
    (wp : WorkingPackage) (ref : DocDeclarationReference)
    (m : DocMemberReference) (rest : List DocMemberReference)
    (hpkg : packageNameMismatch ref wp = false)
    (hip : importPathTruthy ref = false)
    (hsegs : ref.memberReferences = m :: rest)
    (hsym : m.memberSymbol = some ()) :
    resolve table wp ref = .error ⟨symbolSelectorMsg⟩ := by
  unfold resolve
  rw [hpkg, hip, hsegs]
  have hid : getMemberReferenceIdentifier m = .error ⟨symbolSelectorMsg⟩ := by
    unfold getMemberReferenceIdentifier
    rw [hsym]
  simp [resolveMembers, hid]

/-- Witness for C8: a symbol-keyed root segment `[Symbol.iterator]` against
the `widgets` table, which would otherwise have matched nothing anyway; the
hypotheses are discharged at this concrete reference. -/
theorem symbol_keyed_root_rejected_witness :
    resolve widgetsTable widgetsPackage
        ⟨none, none, [⟨some (), none, none⟩]⟩ =
      .error ⟨symbolSelectorMsg⟩ :=
  symbol_keyed_root_rejected widgetsTable widgetsPackage
    ⟨none, none, [⟨some (), none, none⟩]⟩ ⟨some (), none, none⟩ []
    rfl rfl rfl rfl

/-- C10: a segment lacking both a member symbol and a member identifier
produces the fixed reason text `The member identifier is missing in the root
member reference` wherever it occurs: at every non-root position (any current
declaration and any remaining segments) via the descent loop, and at the root
whenever the qualifier checks pass. -/
theorem missing_identifier_uses_root_message (m : DocMemberReference)
    (hsym : m.memberSymbol = none) (hid : m.memberIdentifier = none) :
    (∀ (rest : List DocMemberReference) (cur : AstDeclaration),
      resolveLoop (m :: rest) cur = .error ⟨missingIdentifierMsg⟩) ∧
    (∀ (table : String → Option AstEntity) (wp : WorkingPackage)
      (ref : DocDeclarationReference) (rest : List DocMemberReference),
      packageNameMismatch ref wp = false → importPathTruthy ref = false →
      ref.memberReferences = m :: rest →
      resolve table wp ref = .error ⟨missingIdentifierMsg⟩) := by
  have hmid : getMemberReferenceIdentifier m = .error ⟨missingIdentifierMsg⟩ := by
    unfold getMemberReferenceIdentifier
    rw [hsym, hid]
  constructor
  · intro rest cur
    simp [resolveLoop, hmid]
  · intro table wp ref rest hpkg hip hsegs
    unfold resolve
    rw [hpkg, hip, hsegs]
    simp [resolveMembers, hmid]

/-- Witness for C10: an identifier-less segment in second position (under
`Button`) and the same segment at the root both yield the root-specific
message. -/
theorem missing_identifier_uses_root_message_witness :
    resolveLoop [⟨none, none, none⟩] buttonDecl = .error ⟨missingIdentifierMsg⟩ ∧
    resolve widgetsTable widgetsPackage ⟨none, none, [⟨none, none, none⟩]⟩ =
      .error ⟨missingIdentifierMsg⟩ :=
  ⟨(missing_identifier_uses_root_message ⟨none, none, none⟩ rfl rfl).1 [] buttonDecl,
   (missing_identifier_uses_root_message ⟨none, none, none⟩ rfl rfl).2
     widgetsTable widgetsPackage ⟨none, none, [⟨none, none, none⟩]⟩ [] rfl rfl rfl⟩

/-- C6: during descent, a segment whose plain name matches none of the
current node's children makes the loop fail with `NoMatchingMember` naming
the identifier, for every tail of later segments — so no later segment is
ever examined. -/
theorem no_matching_member_short_circuits (cur : AstDeclaration)
    (m : DocMemberReference) (rest : List DocMemberReference) (memberName : String)
    (hid : getMemberReferenceIdentifier m = .ok memberName)
    (hnone : cur.findChildrenWithName memberName = []) :
    resolveLoop (m :: rest) cur = .error ⟨noMatchingMemberMsg memberName⟩ := by
  simp [resolveLoop, hid, hnone]

/-- Witness for C6: `Button.resize.anything` fails at `resize` (scenario 5),
with a later segment present that is never reached. -/
theorem no_matching_member_short_circuits_witness :
    resolveLoop [plainSegment "resize", plainSegment "anything"] buttonDecl =
      .error ⟨noMatchingMemberMsg "resize"⟩ :=
  no_matching_member_short_circuits buttonDecl (plainSegment "resize")
    [plainSegment "anything"] "resize" rfl rfl

/-- Helper: if the descent loop succeeds on `xs ++ [c]`, it also succeeds on
the prefix `xs`, and `c`'s identifier names a child of the node the prefix
reaches. -/
theorem resolveLoop_truncated_ok (xs : List DocMemberReference)
    (c : DocMemberReference) (cur d : AstDeclaration)
    (h : resolveLoop (xs ++ [c]) cur = .ok d) :
    ∃ d2 : AstDeclaration, resolveLoop xs cur = .ok d2 ∧
      ∃ cname : String, getMemberReferenceIdentifier c = .ok cname ∧
        ∃ child ∈ d2.children, child.name = cname := by
  induction xs generalizing cur with
  | nil =>
    refine ⟨cur, rfl, ?_⟩
    simp only [List.nil_append] at h
    cases hid : getMemberReferenceIdentifier c with
    | error f => simp [resolveLoop, hid] at h
    | ok cname =>
      refine ⟨cname, rfl, ?_⟩
      by_cases hch : (cur.findChildrenWithName cname).length = 0
      · simp [resolveLoop, hid, hch] at h
      · have hne : cur.findChildrenWithName cname ≠ [] := by
          intro hcontra
          rw [hcontra] at hch
          exact hch rfl
        obtain ⟨child, hmem⟩ := List.exists_mem_of_ne_nil _ hne
        unfold AstDeclaration.findChildrenWithName at hmem
        rw [List.mem_filter] at hmem
        exact ⟨child, hmem.1, of_decide_eq_true hmem.2⟩
  | cons x xs ih =>
    rw [List.cons_append] at h
    cases hid : getMemberReferenceIdentifier x with
    | error f => simp [resolveLoop, hid] at h
    | ok mn =>
      by_cases hch : (cur.findChildrenWithName mn).length = 0
      · simp [resolveLoop, hid, hch] at h
      · cases hseld : selectDeclaration (cur.findChildrenWithName mn) x mn with
        | error f => simp [resolveLoop, hid, hch, hseld] at h
        | ok sel =>
          have h' : resolveLoop (xs ++ [c]) sel = .ok d := by
            simpa [resolveLoop, hid, hch, hseld] using h
          obtain ⟨d2, hres, hrest⟩ := ih sel h'
          exact ⟨d2, by simp [resolveLoop, hid, hch, hseld, hres], hrest⟩

/-- Helper: `resolveLoop_truncated_ok` lifted through the root phase. -/
theorem resolveMembers_truncated_ok (table : String → Option AstEntity)
    (wp : WorkingPackage) (x c : DocMemberReference)
    (xs : List DocMemberReference) (d : AstDeclaration)
    (h : resolveMembers table wp (x :: (xs ++ [c])) = .ok d) :
    ∃ d2 : AstDeclaration, resolveMembers table wp (x :: xs) = .ok d2 ∧
      ∃ cname : String, getMemberReferenceIdentifier c = .ok cname ∧
        ∃ child ∈ d2.children, child.name = cname := by
  cases hid : getMemberReferenceIdentifier x with
  | error f => simp [resolveMembers, hid] at h
  | ok exportName =>
    cases htab : table exportName with
    | none => simp [resolveMembers, hid, htab] at h
    | some ent =>
      cases ent with
      | astImport => simp [resolveMembers, hid, htab] at h
      | astSymbol localName astDeclarations =>
        cases hseld : selectDeclaration astDeclarations x localName with
        | error f => simp [resolveMembers, hid, htab, hseld] at h
        | ok cur =>
          have h' : resolveLoop (xs ++ [c]) cur = .ok d := by
            simpa [resolveMembers, hid, htab, hseld] using h
          obtain ⟨d2, hres, hrest⟩ := resolveLoop_truncated_ok xs c cur d h'
          exact ⟨d2, by simp [resolveMembers, hid, htab, hseld, hres], hrest⟩

/-- C7: for every symbol table and every reference with segment sequence
`[a, b, c]`, if resolution succeeds then the same reference truncated to
`[a, b]` also resolves successfully, and `c`'s identifier names a child of
the node that `[a, b]` resolves to. -/
theorem segment_monotonicity (table : String → Option AstEntity)
    (wp : WorkingPackage) (pn ip : Option String)
    (a b c : DocMemberReference) (d : AstDeclaration)
    (hok : resolve table wp ⟨pn, ip, [a, b, c]⟩ = .ok d) :
    ∃ d2 : AstDeclaration,
      resolve table wp ⟨pn, ip, [a, b]⟩ = .ok d2 ∧
      ∃ cname : String, getMemberReferenceIdentifier c = .ok cname ∧
        ∃ child ∈ d2.children, child.name = cname := by
  have hpm2 : packageNameMismatch ⟨pn, ip, [a, b]⟩ wp =
      packageNameMismatch ⟨pn, ip, [a, b, c]⟩ wp := rfl
  have hit2 : importPathTruthy ⟨pn, ip, [a, b]⟩ =
      importPathTruthy ⟨pn, ip, [a, b, c]⟩ := rfl
  by_cases hpm : packageNameMismatch ⟨pn, ip, [a, b, c]⟩ wp = true
  · simp [resolve, hpm] at hok
  · rw [Bool.not_eq_true] at hpm
    by_cases hit : importPathTruthy ⟨pn, ip, [a, b, c]⟩ = true
    · simp [resolve, hpm, hit] at hok
    · rw [Bool.not_eq_true] at hit
      have hok' : resolveMembers table wp (a :: ([b] ++ [c])) = .ok d := by
        simpa [resolve, hpm, hit] using hok
      obtain ⟨d2, hres, hrest⟩ := resolveMembers_truncated_ok table wp a c [b] d hok'
      refine ⟨d2, ?_, hrest⟩
      simp [resolve, hpm2.trans hpm, hit2.trans hit]
      exact hres

/-- Witness for C7: `Button.onClick.size` resolves, so `Button.onClick` also
resolves and `size` names one of its children. -/
theorem segment_monotonicity_witness :
    ∃ d2 : AstDeclaration,
      resolve widgetsTable widgetsPackage
          ⟨none, none, [plainSegment "Button", plainSegment "onClick"]⟩ = .ok d2 ∧
      ∃ cname : String, getMemberReferenceIdentifier (plainSegment "size") = .ok cname ∧
        ∃ child ∈ d2.children, child.name = cname :=
  segment_monotonicity widgetsTable widgetsPackage none none
    (plainSegment "Button") (plainSegment "onClick") (plainSegment "size") sizeDecl rfl

end AstRefResolver
